import Mathlib

/-!
Verification of the request-validation layer of the carbone-express service.

The embedding below translates the validation middleware (validator
utilities, field validators, composite validators, the middleware adapter
and the init entry point) into Lean. JavaScript runtime values are
modelled by `JSValue`; the file-system side effects of the asynchronous
size validator are modelled by an explicit environment `IOEnv` and a trace
of temporary-file events; the external `bytes` package's `parse` and
`format` helpers are modelled from their documented behaviour (`parse`
returns null — `none` — on unparsable input, it does not throw).
-/

namespace Carbone

/-- JavaScript runtime values, as far as the validation layer observes them.
Numbers are modelled as integers (the byte counts and sizes the code
manipulates are integral). -/
inductive JSValue where
| undefined : JSValue
| null : JSValue
| bool : Bool → JSValue
| num : Int → JSValue
| str : String → JSValue
| arr : List JSValue → JSValue
| obj : List (String × JSValue) → JSValue

/-- JavaScript truthiness of a value. -/
def jsTruthy : JSValue → Bool
| .undefined => false
| .null => false
| .bool b => b
| .num n => n != 0
| .str s => s != ""
| .arr _ => true
| .obj _ => true

/-- Property lookup in an object's field list. -/
def lookupField : List (String × JSValue) → String → JSValue
| [], _ => .undefined
| (k, v) :: rest, key => if k == key then v else lookupField rest key

/-- JavaScript property access `value[key]`: `undefined` off objects. -/
def getField : JSValue → String → JSValue
| .obj fields, key => lookupField fields key
| _, _ => .undefined

/-- The string content of a string value (only ever applied to strings). -/
def asStr : JSValue → String
| .str s => s
| _ => ""

/-- `String.prototype.toLowerCase` (ASCII case mapping suffices for the
identifier-like file-type keys this code compares). -/
def strLower (s : String) : String := String.mk (s.data.map Char.toLower)

/-- `validator.isEmpty(s, ignore_whitespace: true)`: the string trims to
nothing, i.e. every character is whitespace. -/
def wsOnly (s : String) : Bool := s.data.all (fun c => c.isWhitespace)

mutual

/-- The string `String(value)` produces, as used by array joins. -/
def jsToStr : JSValue → String
| .undefined => "undefined"
| .null => "null"
| .bool b => if b then "true" else "false"
| .num n => toString n
| .str s => s
| .arr xs => jsArrToStr xs
| .obj _ => "[object Object]"

/-- `Array.prototype.toString`: elements joined by commas, null and
undefined contributing the empty string. -/
def jsArrToStr : List JSValue → String
| [] => ""
| [x] =>
  match x with
  | .undefined => ""
  | .null => ""
  | v => jsToStr v
| x :: y :: xs =>
  (match x with
   | .undefined => ""
   | .null => ""
   | v => jsToStr v) ++ "," ++ jsArrToStr (y :: xs)

end

/-- JavaScript loose equality `value == ""` (the test `fileConversion`
makes on its first argument). -/
def looseEqEmptyStr : JSValue → Bool
| .undefined => false
| .null => false
| .bool b => !b
| .num n => n == 0
| .str s => s == ""
| .arr xs => jsArrToStr xs == ""
| .obj _ => false

/-- The supported-file-type table of the external rendering library: input
type, each with its registered conversion targets (the external
collaborator owns its contents, so definitions take it as a parameter). -/
abbrev FileTypes := List (String × List String)

/-- `fileTypes[key]` as an association-list lookup. -/
def ftLookup (ft : FileTypes) (k : String) : Option (List String) :=
  List.lookup k ft

namespace validatorUtils

/-- `Object.prototype.toString.call(x) === "[object String]"`. -/
def isString : JSValue → Bool
| .str _ => true
| _ => false

/-- isString and not empty ignoring whitespace. -/
def isNonEmptyString : JSValue → Bool
| .str s => !(wsOnly s)
| _ => false

/-- `Object.prototype.toString.call(x) === "[object Object]"`: a plain
object, not an array. -/
def isObject : JSValue → Bool
| .obj _ => true
| _ => false

end validatorUtils

namespace models

namespace carbone

/-- data must be an object or non-empty array. -/
def data (value : JSValue) : Bool :=
  jsTruthy value &&
    ((match value with
      | .arr xs => xs.length != 0
      | _ => false) ||
     validatorUtils.isObject value)

/-- options is optional, but must be an object. -/
def options (value : JSValue) : Bool :=
  if jsTruthy value then validatorUtils.isObject value else true

/-- formatters is optional, but must be a non-empty string. -/
def formatters (value : JSValue) : Bool :=
  if jsTruthy value then validatorUtils.isNonEmptyString value else true

/-- convertTo is optional, but must be a string that names pdf or a key of
the supported-type table. -/
def convertTo (ft : FileTypes) (value : JSValue) : Bool :=
  if jsTruthy value then
    validatorUtils.isNonEmptyString value &&
      (strLower (asStr value) == "pdf" ||
        (ftLookup ft (strLower (asStr value))).isSome)
  else true

/-- reportName is optional, but must be a non-empty string. -/
def reportName (value : JSValue) : Bool :=
  if jsTruthy value then validatorUtils.isNonEmptyString value else true

end carbone

/-- template must be a present, non-null plain object. -/
def template (value : JSValue) : Bool :=
  jsTruthy value && validatorUtils.isObject value

end models

/-- A leading run of decimal digits: accumulated value, digit count, rest. -/
def takeDigits : List Char → Nat → Nat → Nat × Nat × List Char
| c :: cs, acc, k =>
  if c.isDigit then takeDigits cs (acc * 10 + (c.toNat - 48)) (k + 1)
  else (acc, k, c :: cs)
| [], acc, k => (acc, k, [])

/-- The byte multiplier of a unit suffix, lower-cased (the `map` table of
the bytes package). -/
def unitValue : List Char → Option Int
| ['b'] => some 1
| ['k', 'b'] => some 1024
| ['m', 'b'] => some 1048576
| ['g', 'b'] => some 1073741824
| ['t', 'b'] => some 1099511627776
| ['p', 'b'] => some 1125899906842624
| _ => none

/-- The external byte-size parser (`bytes.parse`) on a string, per the
bytes package: sign, digits, optional fraction, spaces and a unit suffix;
a full match yields `floor(multiplier * value)`, otherwise it falls back
to a decimal-integer prefix parse, and yields `none` when even that finds
no digits. -/
def bytesRegexMatch (cs : List Char) : Option Int :=
  let signed : Int × List Char :=
    match cs with
    | '-' :: r => (-1, r)
    | '+' :: r => (1, r)
    | _ => (1, cs)
  match signed.2 with
  | [] => none
  | c :: _ =>
    if !c.isDigit then none
    else
      let r1 := takeDigits signed.2 0 0
      let fracPart : Option (Nat × Nat × List Char) :=
        match r1.2.2 with
        | '.' :: rest =>
          match rest with
          | d :: _ => if d.isDigit then some (takeDigits rest 0 0) else none
          | [] => none
        | cs2 => some (0, 0, cs2)
      match fracPart with
      | none => none
      | some (fv, fl, cs3) =>
        let cs4 := cs3.dropWhile (fun c2 => c2 == ' ')
        match unitValue (cs4.map Char.toLower) with
        | none => none
        | some m =>
          some (Int.fdiv (m * signed.1 * ((r1.1 : Int) * (10 : Int) ^ fl + (fv : Int)))
            ((10 : Int) ^ fl))

/-- `parseInt(s, 10)`: leading whitespace skipped, optional sign, a run of
decimal digits; NaN (`none`) when no digit follows. -/
def parseIntDec (cs0 : List Char) : Option Int :=
  let cs := cs0.dropWhile (fun c => c.isWhitespace)
  let signed : Int × List Char :=
    match cs with
    | '-' :: r => (-1, r)
    | '+' :: r => (1, r)
    | _ => (1, cs)
  match signed.2 with
  | c :: _ =>
    if c.isDigit then some (signed.1 * ((takeDigits signed.2 0 0).1 : Int)) else none
  | [] => none

/-- `bytes.parse` of the external bytes package: a number passes through,
a string is parsed (unit form, then integer fallback), anything else —
and any unparsable string — yields `none` (the package is documented to
return null upon error; it does not throw). -/
def bytesParse : JSValue → Option Int
| .num n => some n
| .str s =>
  match bytesRegexMatch s.data with
  | some v => some v
  | none => parseIntDec s.data
| _ => none

/-- Two-digit zero-padding for the fractional part of a formatted size. -/
def pad2 (n : Int) : String := if n < 10 then "0" ++ toString n else toString n

/-- `(num/den).toFixed(2)` with the trailing-zero stripping `bytes.format`
applies (25.00 prints as 25, 25.50 as 25.5). -/
def formatFixed2 (numv den : Int) : String :=
  let h : Int := Int.fdiv (numv * 200 + den) (2 * den)
  let ip : Int := Int.fdiv h 100
  let fr : Int := h - ip * 100
  if fr == 0 then toString ip
  else if Int.emod fr 10 == 0 then toString ip ++ "." ++ toString (Int.fdiv fr 10)
  else toString ip ++ "." ++ pad2 fr

/-- `bytes.format(value, "MB")` of the external bytes package as the
size-error message uses it. A string options argument carries no unit
field, so the unit is chosen by magnitude; a non-number formats as
null. -/
def bytesFormatMB : JSValue → String
| .num n =>
  if (n.natAbs : Int) ≥ 1125899906842624 then formatFixed2 n 1125899906842624 ++ "PB"
  else if (n.natAbs : Int) ≥ 1099511627776 then formatFixed2 n 1099511627776 ++ "TB"
  else if (n.natAbs : Int) ≥ 1073741824 then formatFixed2 n 1073741824 ++ "GB"
  else if (n.natAbs : Int) ≥ 1048576 then formatFixed2 n 1048576 ++ "MB"
  else if (n.natAbs : Int) ≥ 1024 then formatFixed2 n 1024 ++ "KB"
  else formatFixed2 n 1 ++ "B"
| _ => "null"

/-- Temporary-file events the asynchronous size validator can perform. -/
inductive TmpEvent where
| created : TmpEvent
| removed : TmpEvent
deriving DecidableEq, BEq

/-- The file-system behaviour the size validator's run depends on: whether
`tmp.fileSync` succeeds, whether the write succeeds, and what `statSync`
reports (`none`: it throws). `statSize` is the byte length of the decoded
content as the file system measures it. -/
structure IOEnv where
  tmpOk : Bool
  writeOk : Bool
  statSize : Option Int

namespace models

namespace templateContent

/-- mandatory: content, encodingType and fileType must all be non-empty
strings on the template object. -/
def mandatory (value : JSValue) : Bool :=
  validatorUtils.isNonEmptyString (getField value "content") &&
  validatorUtils.isNonEmptyString (getField value "encodingType") &&
  validatorUtils.isNonEmptyString (getField value "fileType")

/-- content is required: a non-empty string. -/
def content (value : JSValue) : Bool :=
  validatorUtils.isNonEmptyString value

/-- encodingType must be in a set list (vacuously fine when falsy). -/
def encodingType (value : JSValue) : Bool :=
  if jsTruthy value then
    validatorUtils.isNonEmptyString value &&
      ["base64", "binary", "hex"].contains (asStr value)
  else true

/-- fileType is required and must key (lower-cased) into the
supported-type table. -/
def fileType (ft : FileTypes) (value : JSValue) : Bool :=
  validatorUtils.isNonEmptyString value &&
    (ftLookup ft (strLower (asStr value))).isSome

/-- size: content and encoding must pass their own validators and the
limit must parse to a positive byte count, else false with no I/O; then
the decoded content is written to a temporary file, measured, and
compared with the limit; any I/O failure yields false; the temporary
file, once created, is removed on every exit path (the `finally`). The
returned trace lists the temporary-file events of the run. -/
def size (contentVal encodingVal limitVal : JSValue) (env : IOEnv) :
    Bool × List TmpEvent :=
  if !(content contentVal && encodingType encodingVal) then (false, [])
  else
    match bytesParse limitVal with
    | none => (false, [])
    | some n =>
      if n < 1 then (false, [])
      else if !env.tmpOk then (false, [])
      else if !env.writeOk then (false, [.created, .removed])
      else
        match env.statSize with
        | none => (false, [.created, .removed])
        | some sz => (decide (sz ≤ n), [.created, .removed])

/-- fileConversion: input/output file types must exist in the conversion
table; an input loosely equal to the empty string fails outright; when
both are truthy the lower-cased output must be among the input's targets;
otherwise vacuously true. -/
def fileConversion (ft : FileTypes) (contentFileType outputFileType : JSValue) : Bool :=
  if looseEqEmptyStr contentFileType then false
  else if jsTruthy contentFileType && jsTruthy outputFileType then
    match ftLookup ft (strLower (asStr contentFileType)) with
    | some targets => targets.contains (strLower (asStr outputFileType))
    | none => false
  else true

end templateContent

end models

/-- A validation error as the composite validators push it: a `value` or a
`values` payload (or neither) and a message. -/
structure VError where
  value : Option JSValue
  values : Option (List JSValue)
  message : String

def msgData : String := "Invalid value `data`."

def msgOptions : String := "Invalid value `options`."

def msgConvertTo : String := "Invalid value `options.convertTo`."

def msgReportName : String := "Invalid value `options.reportName`."

def msgFormatters : String := "Invalid value `formatters`."

def msgFormattersParse : String :=
  "Formatters could not be parsed into formatters object. See 'https://www.npmjs.com/package/telejson'."

def msgTemplate : String := "Invalid value `template`."

def msgMandatory : String :=
  "Invalid template. Mandatory fields missing. Require content, encodingType and fileType."

def msgFileType : String := "Invalid value `template.fileType`."

def msgContent : String := "Invalid value `template.content`."

def msgEncodingType : String := "Invalid value `template.encodingType`."

def msgConversion : String :=
  "Unsupported file type conversion. A dictionary of supported input and output file types can be found at API endpoint '/fileTypes'"

/-- The message of the size-limit error, interpolating `bytes.format`. -/
def msgSize (limitVal : JSValue) : String :=
  "Template exceeds size limit of " ++ bytesFormatMB limitVal ++ "."

namespace modelValidation

/-- The base carbone composite validator: checks data, options (and, when
options is a valid truthy object, its convertTo and reportName), and
formatters (attempting a telejson parse — `tj` reports whether a given
formatters string parses). Failures accumulate in push order. -/
def carbone (ft : FileTypes) (tj : String → Bool) (body : JSValue) : List VError :=
  (if models.carbone.data (getField body "data") then []
   else [⟨some (getField body "data"), none, msgData⟩]) ++
  (if !(models.carbone.options (getField body "options")) then
    [⟨some (getField body "options"), none, msgOptions⟩]
   else if jsTruthy (getField body "options") then
    (if models.carbone.convertTo ft (getField (getField body "options") "convertTo") then []
     else [⟨some (getField (getField body "options") "convertTo"), none, msgConvertTo⟩]) ++
    (if models.carbone.reportName (getField (getField body "options") "reportName") then []
     else [⟨some (getField (getField body "options") "reportName"), none, msgReportName⟩])
   else []) ++
  (if !(models.carbone.formatters (getField body "formatters")) then
    [⟨some (getField body "formatters"), none, msgFormatters⟩]
   else if jsTruthy (getField body "formatters") &&
       !(tj (asStr (getField body "formatters"))) then
    [⟨some (getField body "formatters"), none, msgFormattersParse⟩]
   else [])

/-- The template-field phase of the upload validator (the `else` branch
after the mandatory check passed): fileType, content and encodingType are
validated independently, any failure disables the size check, the size
check runs only when all three passed, and the conversion-compatibility
check always runs. Returns the pushed errors and the run's
temporary-file trace. -/
def templateFieldPhase (ft : FileTypes) (env : IOEnv) (body limitVal : JSValue) :
    List VError × List TmpEvent :=
  let t := getField body "template"
  let fOk := models.templateContent.fileType ft (getField t "fileType")
  let cOk := models.templateContent.content (getField t "content")
  let eOk := models.templateContent.encodingType (getField t "encodingType")
  let sizeRes :=
    if fOk && cOk && eOk then
      models.templateContent.size (getField t "content") (getField t "encodingType")
        limitVal env
    else (true, [])
  let outTy :=
    if jsTruthy (getField body "options") &&
        jsTruthy (getField (getField body "options") "convertTo") then
      getField (getField body "options") "convertTo"
    else JSValue.str "pdf"
  ((if fOk then [] else [⟨some (getField t "fileType"), none, msgFileType⟩]) ++
   (if cOk then [] else [⟨some (getField t "content"), none, msgContent⟩]) ++
   (if eOk then [] else [⟨some (getField t "encodingType"), none, msgEncodingType⟩]) ++
   (if sizeRes.1 then []
    else [⟨some (JSValue.str "Template document too large"), none, msgSize limitVal⟩]) ++
   (if models.templateContent.fileConversion ft (getField t "fileType") outTy then []
    else [⟨none, some [getField t "fileType", outTy], msgConversion⟩]),
   sizeRes.2)

/-- The template-upload composite validator: the base carbone check first;
only on an empty base list the template-object check, then the
mandatory-fields check, then the field phase. -/
def template (ft : FileTypes) (tj : String → Bool) (env : IOEnv)
    (body limitVal : JSValue) : List VError × List TmpEvent :=
  let errors := carbone ft tj body
  if errors.isEmpty then
    let errors2 :=
      errors ++
        (if models.template (getField body "template") then []
         else [⟨some (getField body "template"), none, msgTemplate⟩])
    if errors2.isEmpty then
      if models.templateContent.mandatory (getField body "template") then
        templateFieldPhase ft env body limitVal
      else (errors2 ++ [⟨none, none, msgMandatory⟩], [])
    else (errors2, [])
  else (errors, [])

end modelValidation

/-- What the middleware adapter does with a validator's error list. -/
inductive MWOutcome where
| next : MWOutcome
| response : Nat → String → List VError → MWOutcome

/-- handleValidationErrors: a present non-empty list becomes one 422
problem response with detail "Validation failed" and the list attached;
otherwise control passes to `next`. -/
def handleValidationErrors : Option (List VError) → MWOutcome
| some errs => if errs.length != 0 then .response 422 "Validation failed" errs else .next
| none => .next

/-- `a || b` on JavaScript values. -/
def jsOr (a b : JSValue) : JSValue := if jsTruthy a then a else b

/-- The size-limit resolution of `init`: call-time option (either
spelling), then the environment value, then the "25MB" default. -/
def resolveMaxFileSize (options envVal : JSValue) : JSValue :=
  jsOr
    (if jsTruthy options then
      jsOr (getField options "maxFileSize") (getField options "max-file-size")
     else options)
    (jsOr envVal (JSValue.str "25MB"))

/-- init: resolves the configured limit and parses it once with
`bytes.parse`. The source wraps the parse in try/catch and would turn a
thrown exception into a fatal error, but `bytes.parse` signals an
unparsable value by returning null (`none`) rather than throwing, so the
catch never fires and the stored limit is the parse result. -/
def init (options envVal : JSValue) : Except String (Option Int) :=
  Except.ok (bytesParse (resolveMaxFileSize options envVal))

/-- The module-load value of the process-wide limit: `bytes.parse("25MB")`. -/
def defaultMaxFileSize : Option Int := bytesParse (JSValue.str "25MB")

/-- A representative supported-type table for concrete evaluations (the
real table lives in the external rendering library). -/
def sampleFileTypes : FileTypes := [("docx", ["pdf", "odt"]), ("xlsx", ["pdf", "csv"])]

/-- The request body of the end-to-end scenario: data present, a template
whose content is the empty string, encodingType base64, fileType docx. -/
def c2Body : JSValue :=
  JSValue.obj
    [("data", JSValue.obj [("a", JSValue.num 1)]),
     ("template", JSValue.obj
       [("content", JSValue.str ""), ("encodingType", JSValue.str "base64"),
        ("fileType", JSValue.str "docx")])]

/-- Claim C7: a zero-length (or absent) error list forwards control to the
next stage with no response; a non-empty list produces exactly one
structured response with status 422, summary "Validation failed" and the
full list as detail, and does not forward control. -/
theorem handleValidationErrors_spec (errs : Option (List VError)) :
    ((errs = none ∨ errs = some []) → handleValidationErrors errs = MWOutcome.next) ∧
    (∀ l, errs = some l → l ≠ [] →
      handleValidationErrors errs = MWOutcome.response 422 "Validation failed" l) := by
  constructor
  · rintro (rfl | rfl) <;> rfl
  · rintro l rfl hl
    cases l with
    | nil => exact absurd rfl hl
    | cons a t => rfl

/-- Witness for C7: a singleton error list yields the 422 response. -/
theorem handleValidationErrors_spec_witness :
    handleValidationErrors (some [⟨none, none, msgData⟩]) =
      MWOutcome.response 422 "Validation failed" [⟨none, none, msgData⟩] :=
  (handleValidationErrors_spec (some [⟨none, none, msgData⟩])).2 _ rfl (by simp)

/-- Claim C9: the standalone encodingType validator accepts every falsy
value (undefined, null, the empty string) vacuously and rejects only
truthy values outside base64, binary and hex; the requiredness of the
field is enforced by the separate mandatory check, which fails whenever
encodingType is missing or empty. -/
theorem encodingType_optional :
    (models.templateContent.encodingType JSValue.undefined = true ∧
     models.templateContent.encodingType JSValue.null = true ∧
     models.templateContent.encodingType (JSValue.str "") = true) ∧
    (∀ v, models.templateContent.encodingType v = false →
      jsTruthy v = true ∧
        ∀ s, v = JSValue.str s → ¬(s = "base64" ∨ s = "binary" ∨ s = "hex")) ∧
    (∀ s, (s = "base64" ∨ s = "binary" ∨ s = "hex") →
      models.templateContent.encodingType (JSValue.str s) = true) ∧
    (∀ t, (getField t "encodingType" = JSValue.undefined ∨
           getField t "encodingType" = JSValue.null ∨
           getField t "encodingType" = JSValue.str "") →
      models.templateContent.mandatory t = false) := by
  refine ⟨⟨rfl, rfl, rfl⟩, ?_, ?_, ?_⟩
  · intro v h
    by_cases hv : jsTruthy v = true
    · refine ⟨hv, ?_⟩
      rintro s rfl hmem
      rcases hmem with rfl | rfl | rfl <;> exact absurd h (by decide)
    · rw [models.templateContent.encodingType, if_neg hv] at h
      exact absurd h (by decide)
  · rintro s (rfl | rfl | rfl) <;> decide
  · intro t h
    rcases h with h | h | h <;>
      simp only [models.templateContent.mandatory, h] <;>
      simp [validatorUtils.isNonEmptyString, wsOnly]

/-- Witness for C9: the rejected value "utf8" is truthy and outside the
enumeration. -/
theorem encodingType_optional_witness :
    jsTruthy (JSValue.str "utf8") = true :=
  ((encodingType_optional).2.1 (JSValue.str "utf8") (by decide)).1

/-- Claim C5: for present (non-empty-string) arguments, fileConversion is
true iff the supported-type table lists the lower-cased output among the
input's registered targets; an empty-string input returns false; an
absent argument makes the check vacuously true. -/
theorem fileConversion_table (ft : FileTypes) :
    (∀ i o : String, i ≠ "" → o ≠ "" →
      (models.templateContent.fileConversion ft (JSValue.str i) (JSValue.str o) = true ↔
        ∃ ts, ftLookup ft (strLower i) = some ts ∧ ts.contains (strLower o) = true)) ∧
    (∀ o, models.templateContent.fileConversion ft (JSValue.str "") o = false) ∧
    (∀ o, models.templateContent.fileConversion ft JSValue.undefined o = true) ∧
    (∀ i : String, i ≠ "" →
      models.templateContent.fileConversion ft (JSValue.str i) JSValue.undefined = true) ∧
    models.templateContent.fileConversion ft JSValue.undefined JSValue.undefined = true := by
  refine ⟨?_, ?_, fun o => rfl, ?_, rfl⟩
  · intro i o hi ho
    simp only [models.templateContent.fileConversion, looseEqEmptyStr, jsTruthy, asStr]
    rw [if_neg (by simp [hi]), if_pos (by simp [hi, ho])]
    cases hft : ftLookup ft (strLower i) <;> simp [hft]
  · intro o
    simp [models.templateContent.fileConversion, looseEqEmptyStr]
  · intro i hi
    simp only [models.templateContent.fileConversion, looseEqEmptyStr, jsTruthy]
    rw [if_neg (by simp [hi]), if_neg (by simp)]

/-- Witness for C5: docx → PDF is accepted against the sample table. -/
theorem fileConversion_table_witness :
    models.templateContent.fileConversion sampleFileTypes
      (JSValue.str "docx") (JSValue.str "PDF") = true :=
  ((fileConversion_table sampleFileTypes).1 "docx" "PDF" (by decide) (by decide)).mpr
    ⟨["pdf", "odt"], by decide, by decide⟩

/-- Claim C8: on every exit path of the asynchronous size validator the
temporary-file trace carries as many removals as creations — no run
leaves a temporary artifact behind, I/O exceptions included. -/
theorem size_tmpfile_released (c e l : JSValue) (env : IOEnv) :
    ((models.templateContent.size c e l env).2.count TmpEvent.created) =
      ((models.templateContent.size c e l env).2.count TmpEvent.removed) := by
  unfold models.templateContent.size
  repeat' split <;> try rfl

/-- Claim C3: the size validator returns false with no I/O (an empty
temporary-file trace) whenever content fails its check, encoding fails
the enumeration check, or the limit does not parse to a positive byte
count; any run that performs I/O had all preconditions hold; and when
they hold and the I/O succeeds it returns whether the measured decoded
size is at or below the parsed limit. -/
theorem size_preconditions (c e l : JSValue) (env : IOEnv) :
    ((models.templateContent.content c = false ∨
      models.templateContent.encodingType e = false) →
      models.templateContent.size c e l env = (false, [])) ∧
    ((∀ n, bytesParse l = some n → n < 1) →
      models.templateContent.size c e l env = (false, [])) ∧
    ((models.templateContent.size c e l env).2 ≠ [] →
      models.templateContent.content c = true ∧
      models.templateContent.encodingType e = true ∧
      ∃ n, bytesParse l = some n ∧ 1 ≤ n) ∧
    (∀ n sz, models.templateContent.content c = true →
      models.templateContent.encodingType e = true →
      bytesParse l = some n → 1 ≤ n → env.tmpOk = true → env.writeOk = true →
      env.statSize = some sz →
      models.templateContent.size c e l env =
        (decide (sz ≤ n), [TmpEvent.created, TmpEvent.removed])) := by
  refine ⟨?_, ?_, ?_, ?_⟩
  · rintro (h | h) <;> simp [models.templateContent.size, h]
  · intro h
    cases hce : (models.templateContent.content c &&
        models.templateContent.encodingType e) with
    | false => simp [models.templateContent.size, hce]
    | true =>
      cases hbp : bytesParse l with
      | none => simp [models.templateContent.size, hce, hbp]
      | some n => simp [models.templateContent.size, hce, hbp, h n hbp]
  · intro htr
    cases hce : (models.templateContent.content c &&
        models.templateContent.encodingType e) with
    | false => simp [models.templateContent.size, hce] at htr
    | true =>
      rcases Bool.and_eq_true_iff.mp hce with ⟨hc, he⟩
      cases hbp : bytesParse l with
      | none => simp [models.templateContent.size, hce, hbp] at htr
      | some n =>
        by_cases hn : n < 1
        · simp [models.templateContent.size, hce, hbp, hn] at htr
        · exact ⟨hc, he, n, rfl, Int.not_lt.mp hn⟩
  · intro n sz h1 h2 h3 h4 h5 h6 h7
    simp [models.templateContent.size, h1, h2, h3, h5, h6, h7, Int.not_lt.mpr h4]

/-- Witness for C3: valid content, base64 encoding, limit 100 and a
measured size of 2 yield true with a create/remove trace. -/
theorem size_preconditions_witness :
    models.templateContent.size (JSValue.str "hi") (JSValue.str "base64")
      (JSValue.num 100) ⟨true, true, some 2⟩ =
      (true, [TmpEvent.created, TmpEvent.removed]) := by
  have h := (size_preconditions (JSValue.str "hi") (JSValue.str "base64")
    (JSValue.num 100) ⟨true, true, some 2⟩).2.2.2 100 2
    (by decide) (by decide) rfl (by decide) rfl rfl rfl
  simpa using h

/-- Claim C4 evaluation: init with the unparsable option "garbage"
completes without a fatal error and stores a null limit (the bytes
package returns null rather than throwing, so the init try/catch never
fires); the precedence chain itself works (both option spellings beat the
environment value, which beats the 25MB default); and a null limit then
makes every size check fail at request time with no I/O. -/
theorem init_unparsable_not_fatal :
    init (JSValue.obj [("maxFileSize", JSValue.str "garbage")]) JSValue.undefined =
      Except.ok none ∧
    init JSValue.undefined JSValue.undefined = Except.ok (some 26214400) ∧
    init (JSValue.obj [("max-file-size", JSValue.str "1KB")]) JSValue.undefined =
      Except.ok (some 1024) ∧
    init (JSValue.obj [("maxFileSize", JSValue.str "1KB"),
        ("max-file-size", JSValue.str "2KB")]) (JSValue.str "3KB") =
      Except.ok (some 1024) ∧
    init JSValue.undefined (JSValue.str "3KB") = Except.ok (some 3072) ∧
    models.templateContent.size (JSValue.str "abc") (JSValue.str "base64") JSValue.null
      (⟨true, true, some 1⟩ : IOEnv) = (false, []) :=
  ⟨rfl, rfl, rfl, rfl, rfl, rfl⟩

/-- Claim C2: the end-to-end scenario body (empty content, valid base64
encoding, docx file type) yields exactly one violation — the
mandatory-fields error that the empty content triggers — with the size
check skipped (no size violation, no temporary-file I/O), for every
table, formatters oracle, file-system behaviour and limit. -/
theorem templateUpload_emptyContent (ft : FileTypes) (tj : String → Bool)
    (env : IOEnv) (limitVal : JSValue) :
    modelValidation.template ft tj env c2Body limitVal =
      ([⟨none, none, msgMandatory⟩], []) ∧
    models.templateContent.content (getField (getField c2Body "template") "content") =
      false ∧
    models.templateContent.encodingType
      (getField (getField c2Body "template") "encodingType") = true ∧
    validatorUtils.isNonEmptyString
      (getField (getField c2Body "template") "fileType") = true :=
  ⟨rfl, rfl, rfl, rfl⟩

/-- When options is a valid truthy object and its convertTo fails, the
base validator's list contains the convertTo error. -/
lemma convertTo_mem (ft : FileTypes) (tj : String → Bool) (body : JSValue)
    (hopts : models.carbone.options (getField body "options") = true)
    (htr : jsTruthy (getField body "options") = true)
    (hct : models.carbone.convertTo ft
      (getField (getField body "options") "convertTo") = false) :
    (⟨some (getField (getField body "options") "convertTo"), none, msgConvertTo⟩ : VError) ∈
      modelValidation.carbone ft tj body := by
  simp only [modelValidation.carbone, hopts, htr, hct]
  simp

/-- When the convertTo field validator passes, no entry of the base
validator's list carries the convertTo message. -/
lemma convertTo_not_mem (ft : FileTypes) (tj : String → Bool) (body : JSValue)
    (hct : models.carbone.convertTo ft
      (getField (getField body "options") "convertTo") = true) :
    ∀ e ∈ modelValidation.carbone ft tj body, e.message ≠ msgConvertTo := by
  intro e he
  simp only [modelValidation.carbone, hct] at he
  rcases List.mem_append.mp he with h12 | h3
  · rcases List.mem_append.mp h12 with h1 | h2
    · split at h1
      · simp at h1
      · simp at h1
        subst h1
        exact (by decide : msgData ≠ msgConvertTo)
    · split at h2
      · simp at h2
        subst h2
        exact (by decide : msgOptions ≠ msgConvertTo)
      · split at h2
        · rcases List.mem_append.mp h2 with hb1 | hb2
          · simp at hb1
          · split at hb2
            · simp at hb2
            · simp at hb2
              subst hb2
              exact (by decide : msgReportName ≠ msgConvertTo)
        · simp at h2
  · split at h3
    · simp at h3
      subst h3
      exact (by decide : msgFormatters ≠ msgConvertTo)
    · split at h3
      · simp at h3
        subst h3
        exact (by decide : msgFormattersParse ≠ msgConvertTo)
      · simp at h3

/-- Claim C6: with a valid options object, a present convertTo that is
neither case-insensitively pdf nor a key of the supported-type table
records a convertTo violation, while a valid key (any letter case) or pdf
records none. -/
theorem convertTo_table_check (ft : FileTypes) (tj : String → Bool) (body : JSValue)
    (s : String)
    (hObj : validatorUtils.isObject (getField body "options") = true)
    (hCt : getField (getField body "options") "convertTo" = JSValue.str s) :
    (s ≠ "" → strLower s ≠ "pdf" → ftLookup ft (strLower s) = none →
      ∃ e ∈ modelValidation.carbone ft tj body, e.message = msgConvertTo) ∧
    (wsOnly s = false →
      (strLower s = "pdf" ∨ (ftLookup ft (strLower s)).isSome = true) →
      ∀ e ∈ modelValidation.carbone ft tj body, e.message ≠ msgConvertTo) := by
  have htr : jsTruthy (getField body "options") = true := by
    cases hvo : getField body "options" <;>
      simp_all [validatorUtils.isObject, jsTruthy]
  have hopts : models.carbone.options (getField body "options") = true := by
    simp [models.carbone.options, htr, hObj]
  constructor
  · intro h1 h2 h3
    have hct : models.carbone.convertTo ft
        (getField (getField body "options") "convertTo") = false := by
      rw [hCt]
      simp only [models.carbone.convertTo, jsTruthy, asStr]
      rw [if_pos (by simp [h1])]
      simp [h2, h3]
    exact ⟨_, convertTo_mem ft tj body hopts htr hct, rfl⟩
  · intro hws hvalid
    have hs : s ≠ "" := by
      intro h
      rw [h] at hws
      exact absurd hws (by decide)
    have hct : models.carbone.convertTo ft
        (getField (getField body "options") "convertTo") = true := by
      rw [hCt]
      simp only [models.carbone.convertTo, jsTruthy, asStr]
      rw [if_pos (by simp [hs])]
      rcases hvalid with h | h <;>
        simp [validatorUtils.isNonEmptyString, hws, h]
    exact convertTo_not_mem ft tj body hct

/-- Witness for C6: convertTo "xyz" (not pdf, not a key of the sample
table) produces a convertTo violation. -/
theorem convertTo_table_check_witness :
    ∃ e ∈ modelValidation.carbone sampleFileTypes (fun _ => true)
      (JSValue.obj [("options", JSValue.obj [("convertTo", JSValue.str "xyz")])]),
      e.message = msgConvertTo :=
  (convertTo_table_check sampleFileTypes (fun _ => true)
    (JSValue.obj [("options", JSValue.obj [("convertTo", JSValue.str "xyz")])])
    "xyz" rfl rfl).1 (by decide) (by decide) (by decide)

/-- Claim C10: for every payload, the base validator's list has at most
four entries, no message appears twice (so each field contributes at most
one entry), the two formatters-related messages together contribute at
most one entry, and every entry carries a non-empty message. -/
theorem carbone_error_bounds (ft : FileTypes) (tj : String → Bool) (body : JSValue) :
    (modelValidation.carbone ft tj body).length ≤ 4 ∧
    ((modelValidation.carbone ft tj body).map (fun e => e.message)).Nodup ∧
    (modelValidation.carbone ft tj body).countP
      (fun e => e.message == msgFormatters || e.message == msgFormattersParse) ≤ 1 ∧
    ∀ e ∈ modelValidation.carbone ft tj body, e.message ≠ "" := by
  simp only [modelValidation.carbone]
  split_ifs <;>
    refine ⟨by simp, by simp [msgData, msgOptions, msgConvertTo, msgReportName,
      msgFormatters, msgFormattersParse], by simp [msgData, msgOptions, msgConvertTo,
      msgReportName, msgFormatters, msgFormattersParse], ?_⟩ <;>
    · intro e he
      simp only [List.mem_append, List.mem_singleton, List.not_mem_nil] at he
      rcases he with (he | he) | he <;>
        first
        | exact absurd he not_false
        | (rcases he with he | he <;>
            first
            | exact absurd he not_false
            | (subst he
               simp [msgData, msgOptions, msgConvertTo, msgReportName,
                 msgFormatters, msgFormattersParse]))
        | (subst he
           simp [msgData, msgOptions, msgConvertTo, msgReportName,
             msgFormatters, msgFormattersParse])

/-- Witness for C10: the data error recorded for an empty body carries a
non-empty message. -/
theorem carbone_error_bounds_witness :
    (⟨some JSValue.undefined, none, msgData⟩ : VError).message ≠ "" :=
  (carbone_error_bounds sampleFileTypes (fun _ => true) (JSValue.obj [])).2.2.2
    ⟨some JSValue.undefined, none, msgData⟩ (List.mem_singleton.mpr rfl)

/-- Claim C1: the template-upload validator runs the base check first and
returns exactly the base list when it is non-empty; with an empty base
list it checks the template object (one template error), then the three
mandatory sub-fields (one mandatory error), and otherwise validates
fileType, content and encodingType independently, collecting all three
failures, runs the size check (with its I/O) only when all three passed,
and always runs the conversion-compatibility check, appending its error
when incompatible. -/
theorem validateTemplate_algorithm (ft : FileTypes) (tj : String → Bool)
    (env : IOEnv) (body limitVal : JSValue) :
    (modelValidation.carbone ft tj body ≠ [] →
      modelValidation.template ft tj env body limitVal =
        (modelValidation.carbone ft tj body, [])) ∧
    (modelValidation.carbone ft tj body = [] →
      models.template (getField body "template") = false →
      modelValidation.template ft tj env body limitVal =
        ([⟨some (getField body "template"), none, msgTemplate⟩], [])) ∧
    (modelValidation.carbone ft tj body = [] →
      models.template (getField body "template") = true →
      models.templateContent.mandatory (getField body "template") = false →
      modelValidation.template ft tj env body limitVal =
        ([⟨none, none, msgMandatory⟩], [])) ∧
    (modelValidation.carbone ft tj body = [] →
      models.template (getField body "template") = true →
      models.templateContent.mandatory (getField body "template") = true →
      modelValidation.template ft tj env body limitVal =
        ((if models.templateContent.fileType ft
              (getField (getField body "template") "fileType") then []
          else [⟨some (getField (getField body "template") "fileType"), none,
            msgFileType⟩]) ++
         (if models.templateContent.content
              (getField (getField body "template") "content") then []
          else [⟨some (getField (getField body "template") "content"), none,
            msgContent⟩]) ++
         (if models.templateContent.encodingType
              (getField (getField body "template") "encodingType") then []
          else [⟨some (getField (getField body "template") "encodingType"), none,
            msgEncodingType⟩]) ++
         (if models.templateContent.fileType ft
              (getField (getField body "template") "fileType") &&
            models.templateContent.content
              (getField (getField body "template") "content") &&
            models.templateContent.encodingType
              (getField (getField body "template") "encodingType") then
            (if (models.templateContent.size
                  (getField (getField body "template") "content")
                  (getField (getField body "template") "encodingType")
                  limitVal env).1 then []
             else [⟨some (JSValue.str "Template document too large"), none,
               msgSize limitVal⟩])
          else []) ++
         (if models.templateContent.fileConversion ft
              (getField (getField body "template") "fileType")
              (if jsTruthy (getField body "options") &&
                  jsTruthy (getField (getField body "options") "convertTo") then
                getField (getField body "options") "convertTo"
               else JSValue.str "pdf") then []
          else [⟨none, some [getField (getField body "template") "fileType",
            if jsTruthy (getField body "options") &&
                jsTruthy (getField (getField body "options") "convertTo") then
              getField (getField body "options") "convertTo"
            else JSValue.str "pdf"], msgConversion⟩]),
         if models.templateContent.fileType ft
              (getField (getField body "template") "fileType") &&
            models.templateContent.content
              (getField (getField body "template") "content") &&
            models.templateContent.encodingType
              (getField (getField body "template") "encodingType") then
           (models.templateContent.size
             (getField (getField body "template") "content")
             (getField (getField body "template") "encodingType") limitVal env).2
         else [])) := by
  refine ⟨?_, ?_, ?_, ?_⟩
  · intro h
    cases hb : modelValidation.carbone ft tj body with
    | nil => exact absurd hb h
    | cons a l => simp [modelValidation.template, hb]
  · intro h1 h2
    simp [modelValidation.template, h1, h2]
  · intro h1 h2 h3
    simp [modelValidation.template, h1, h2, h3]
  · intro h1 h2 h3
    simp only [modelValidation.template, h1, List.isEmpty_nil, if_true, h2,
      List.nil_append, List.isEmpty_nil, h3, if_true, ite_true]
    simp only [modelValidation.templateFieldPhase]
    cases hall : (models.templateContent.fileType ft
        (getField (getField body "template") "fileType") &&
      models.templateContent.content
        (getField (getField body "template") "content") &&
      models.templateContent.encodingType
        (getField (getField body "template") "encodingType")) with
    | true => simp [hall]
    | false => simp [hall]

/-- Witness for C1: a body with no data field fails the base check, and
the upload validator returns exactly that base list. -/
theorem validateTemplate_algorithm_witness :
    modelValidation.template sampleFileTypes (fun _ => true) ⟨true, true, some 1⟩
      (JSValue.obj []) (JSValue.num 1) =
      (modelValidation.carbone sampleFileTypes (fun _ => true) (JSValue.obj []), []) :=
  (validateTemplate_algorithm sampleFileTypes (fun _ => true) ⟨true, true, some 1⟩
    (JSValue.obj []) (JSValue.num 1)).1 (List.cons_ne_nil _ _)

end Carbone
